import Mathlib

/-!
Verification of the `aix_lvol` module (plugins/modules/system/aix_lvol.py):
a shallow embedding of its size conversion, rounding, report parsing and
reconciliation logic, together with theorems settling the specification
claims.  Strings are modelled at the `List Char` level (Python `str` is a
sequence of characters); character classes are the ASCII fragments of the
Python `re` classes, which is what the reports in question use.
-/

/-- ASCII fragment of the Python regex class `\s` (also the whitespace set
stripped by `int()` on strings). -/
def isPySpaceCh (c : Char) : Bool :=
  c == ' ' || c == '\t' || c == '\n' || c == '\r' || c == '\x0b' || c == '\x0c'

/-- ASCII fragment of the Python regex class `\d`. -/
def isPyDigitCh (c : Char) : Bool :=
  c.isDigit

/-- ASCII fragment of the Python regex class `\w`. -/
def isPyWordCh (c : Char) : Bool :=
  c.isAlphanum || c == '_'

/-- Numeric value of a run of decimal digits (most significant first). -/
def digitsVal (l : List Char) : Nat :=
  l.foldl (fun a c => a * 10 + (c.toNat - 48)) 0

/-- Strip leading and trailing Python whitespace, as `int()` does before
parsing a string. -/
def pyStrip (l : List Char) : List Char :=
  ((l.dropWhile isPySpaceCh).reverse.dropWhile isPySpaceCh).reverse

/-- Model of CPython `int(s)` on a string: optional surrounding whitespace,
an optional sign, then one or more ASCII decimal digits; `none` models the
`ValueError` raised on anything else.  (CPython additionally accepts
underscore digit separators and non-ASCII digits, which the reports and
claims at hand never contain.) -/
def pyInt? (l : List Char) : Option Int :=
  match pyStrip l with
  | '+' :: rest =>
      if rest.isEmpty then none
      else if rest.all isPyDigitCh then some (digitsVal rest) else none
  | '-' :: rest =>
      if rest.isEmpty then none
      else if rest.all isPyDigitCh then some (-(digitsVal rest : Int)) else none
  | rest =>
      if rest.isEmpty then none
      else if rest.all isPyDigitCh then some (digitsVal rest) else none

/-- Result of `convert_size`: a value in megabytes, the `fail_json` call
with message "No valid size unit specified." (the InvalidSizeUnit failure),
or an unhandled Python exception escaping the function. -/
inductive SizeResult where
  | ok (mb : Int)
  | invalidUnit
  | pyError (e : String)
deriving DecidableEq

/-- Position of a unit letter in the list `units = ['M', 'G', 'T']`, i.e.
Python `units.index(unit)`, with `none` modelling the `ValueError` that the
source catches and turns into the InvalidSizeUnit failure. -/
def unitIdx (c : Char) : Option Nat :=
  if c = 'M' then some 0 else if c = 'G' then some 1 else if c = 'T' then some 2 else none

/-- Embedding of `convert_size` (aix_lvol.py lines 132-140):
`unit = size[-1].upper()` (IndexError on the empty string), then
`units.index(unit)` (InvalidSizeUnit on a bad letter), then
`int(size[:-1]) * multiplier` (ValueError on a non-integer prefix). -/
def convertSizeL (l : List Char) : SizeResult :=
  match l.reverse with
  | [] => .pyError "IndexError"
  | u :: preRev =>
    match unitIdx u.toUpper with
    | none => .invalidUnit
    | some i =>
      match pyInt? preRev.reverse with
      | none => .pyError "ValueError"
      | some n => .ok (n * (1024 : Int) ^ i)

/-- `convert_size` on a Lean `String`. -/
def convert_size (size : String) : SizeResult :=
  convertSizeL size.data

/-- Model of Python `round(float(num) / den)` for integers `num`, `den`
with `den ≠ 0`: round-half-to-even of the exact rational `num / den`.
This coincides with the binary64 evaluation exactly when
`num.natAbs < 2 ^ 52`: there `float(num) = num`, the correctly rounded
quotient lies strictly on the same side of every half-integer boundary as
the exact quotient (an exact half needs `|2 num - den (2 k + 1)| = 0`, a
nonzero error needs quotient ulp at least `1 / den`), and exact halves
are representable, so `round` agrees with rational half-to-even.  Beyond
`2 ^ 52` the `float(num)` pre-rounding makes CPython's result diverge
from this model (see the record of claim C6); theorems about runs
therefore carry the `natAbs < 2 ^ 52` bound. -/
def pyRound (num den : Int) : Int :=
  if 2 * (num % den) < den then num / den
  else if den < 2 * (num % den) then num / den + 1
  else if (num / den) % 2 = 0 then num / den else num / den + 1

/-- Embedding of `round_ppsize` (aix_lvol.py lines 143-147):
`new_size = int(base * round(float(x) / base)); if new_size < x:
new_size += base` (the outer `int()` is the identity on integers).
`float(x) / base` raises `ZeroDivisionError` when `base` is zero — a
reachable state, since a report line `PP SIZE: 0` parses successfully —
so the function is fallible; the rational rounding model is exact for
`x.natAbs < 2 ^ 52` (see `pyRound`). -/
def round_ppsize (x : Int) (base : Int := 16) : Except String Int :=
  if base = 0 then .error "ZeroDivisionError"
  else if base * pyRound x base < x then .ok (base * pyRound x base + base)
  else .ok (base * pyRound x base)

/-- Match a literal at the head of the input, returning the remainder. -/
def stripLit : List Char → List Char → Option (List Char)
  | [], l => some l
  | _ :: _, [] => none
  | a :: as, c :: cs => if a == c then stripLit as cs else none

/-- Greedy `+` on a character class: the maximal nonempty run satisfying
`p`, with the remainder; `none` if the first character does not satisfy
`p`. -/
def takeWhile1 (p : Char → Bool) (l : List Char) : Option (List Char × List Char) :=
  if (l.takeWhile p).isEmpty then none else some (l.takeWhile p, l.dropWhile p)

/-- Substring test (used for a trailing `.*LIT` in a pattern, where only
the existence of the literal matters because nothing after it is
captured). -/
def hasSub (pat : List Char) : List Char → Bool
  | [] => (stripLit pat []).isSome
  | c :: cs => (stripLit pat (c :: cs)).isSome || hasSub pat cs

/-- Greedy `.*\((\d+)` after a literal: a backtracking `.*` matches up to
the rightmost `(` that is followed by at least one digit; the capture is
the maximal digit run there. -/
def lastParenDigits : List Char → Option Int
  | [] => none
  | c :: cs =>
    match lastParenDigits cs with
    | some v => some v
    | none =>
      if c == '(' then (takeWhile1 isPyDigitCh cs).map (fun d => (digitsVal d.1 : Int))
      else none

/-- `re.search` position scan: try the matcher at every start position,
left to right, returning the first success. -/
def searchFrom (m : List Char → Option α) : List Char → Option α
  | [] => m []
  | c :: cs =>
    match m (c :: cs) with
    | some r => some r
    | none => searchFrom m cs

/-- Matcher for `VOLUME GROUP:\s+(\w+)` at the current position. -/
def mVGName (l : List Char) : Option (List Char) :=
  (stripLit "VOLUME GROUP:".data l).bind fun r =>
  (takeWhile1 isPySpaceCh r).bind fun s1 =>
  (takeWhile1 isPyWordCh s1.2).map fun w => w.1

/-- Matcher for `LOGICAL VOLUME:\s+(\w+)\s+VOLUME GROUP:\s+(\w+)` at the
current position. -/
def mLVName (l : List Char) : Option (List Char × List Char) :=
  (stripLit "LOGICAL VOLUME:".data l).bind fun r =>
  (takeWhile1 isPySpaceCh r).bind fun s1 =>
  (takeWhile1 isPyWordCh s1.2).bind fun n =>
  (takeWhile1 isPySpaceCh n.2).bind fun s2 =>
  (stripLit "VOLUME GROUP:".data s2.2).bind fun r2 =>
  (takeWhile1 isPySpaceCh r2).bind fun s3 =>
  (takeWhile1 isPyWordCh s3.2).map fun g => (n.1, g.1)

/-- Matcher for `LPs:\s+(\d+).*PPs` at the current position (the digit
classes are disjoint from `\s`, and `PPs` contains no digit, so the greedy
run and a substring test realize the backtracking semantics). -/
def mLPs (l : List Char) : Option Int :=
  (stripLit "LPs:".data l).bind fun r =>
  (takeWhile1 isPySpaceCh r).bind fun s1 =>
  (takeWhile1 isPyDigitCh s1.2).bind fun d =>
  if hasSub "PPs".data d.2 then some (digitsVal d.1 : Int) else none

/-- Matcher for `PP SIZE:\s+(\d+)` at the current position. -/
def mPPSize (l : List Char) : Option Int :=
  (stripLit "PP SIZE:".data l).bind fun r =>
  (takeWhile1 isPySpaceCh r).bind fun s1 =>
  (takeWhile1 isPyDigitCh s1.2).map fun d => (digitsVal d.1 : Int)

/-- Matcher for `INTER-POLICY:\s+(\w+)` at the current position. -/
def mPolicy (l : List Char) : Option (List Char) :=
  (stripLit "INTER-POLICY:".data l).bind fun r =>
  (takeWhile1 isPySpaceCh r).bind fun s1 =>
  (takeWhile1 isPyWordCh s1.2).map fun w => w.1

/-- Matcher for `TOTAL PP.*\((\d+)` at the current position. -/
def mTotal (l : List Char) : Option Int :=
  (stripLit "TOTAL PP".data l).bind lastParenDigits

/-- Matcher for `FREE PP.*\((\d+)` at the current position. -/
def mFree (l : List Char) : Option Int :=
  (stripLit "FREE PP".data l).bind lastParenDigits

/-- Line terminators recognized by Python `str.splitlines` (ASCII
fragment). -/
def isLineBrk (c : Char) : Bool :=
  c == '\n' || c == '\r' || c == '\x0b' || c == '\x0c'

/-- Worker for `pySplitlines`: `cur` is the reversed current line. -/
def splitGo (cur : List Char) : List Char → List (List Char)
  | [] => [cur.reverse]
  | '\r' :: '\n' :: [] => [cur.reverse]
  | '\r' :: '\n' :: c :: t => cur.reverse :: splitGo [] (c :: t)
  | c :: t =>
    if isLineBrk c then
      match t with
      | [] => [cur.reverse]
      | _ :: _ => cur.reverse :: splitGo [] t
    else splitGo (c :: cur) t

/-- Model of Python `str.splitlines()`: split at `\n`, `\r`, `\r\n` (and
`\v`, `\f`), with no trailing empty line. -/
def pySplitlines : List Char → List (List Char)
  | [] => []
  | c :: t => splitGo [] (c :: t)

/-- Volume-group facts as built by `parse_vg` (the dict
`{'name', 'size', 'free', 'pp_size'}`). -/
structure VGFacts where
  name : String
  size : Int
  free : Int
  pp_size : Int
deriving DecidableEq

/-- Logical-volume facts as built by `parse_lv` (the dict
`{'name', 'vg', 'size', 'policy'}` with `size = lps * pp_size`). -/
structure LVFacts where
  name : String
  vg : String
  size : Int
  policy : String
deriving DecidableEq

/-- Accumulated local variables of the `parse_vg` loop; `none` models a
variable that has not been assigned yet. -/
structure VGScan where
  name : Option String
  size : Option Int
  free : Option Int
  pp_size : Option Int

/-- One iteration of the `parse_vg` loop (aix_lvol.py lines 181-201): the
four regexes are tried in order and the first match assigns its variable
(the `continue` skips the rest). -/
def scanVGLine (st : VGScan) (line : List Char) : VGScan :=
  match searchFrom mVGName line with
  | some n => { st with name := some (String.mk n) }
  | none =>
    match searchFrom mTotal line with
    | some v => { st with size := some v }
    | none =>
      match searchFrom mPPSize line with
      | some v => { st with pp_size := some v }
      | none =>
        match searchFrom mFree line with
        | some v => { st with free := some v }
        | none => st

/-- The `parse_vg` loop over all lines of the report. -/
def scanVG (data : String) : VGScan :=
  (pySplitlines data.data).foldl scanVGLine ⟨none, none, none, none⟩

/-- Embedding of `parse_vg` (aix_lvol.py lines 179-203).  The returned
dict reads all four loop variables; referencing one that was never
assigned raises `UnboundLocalError`, modelled by the error result. -/
def parse_vg (data : String) : Except String VGFacts :=
  match (scanVG data).name, (scanVG data).size, (scanVG data).free, (scanVG data).pp_size with
  | some n, some s, some f, some pp => .ok ⟨n, s, f, pp⟩
  | _, _, _, _ => .error "UnboundLocalError"

/-- Accumulated local variables of the `parse_lv` loop; `name` and `vg`
are always assigned together by the one regex that binds both. -/
structure LVScan where
  namevg : Option (String × String)
  lps : Option Int
  pp_size : Option Int
  policy : Option String

/-- One iteration of the `parse_lv` loop (aix_lvol.py lines 153-170). -/
def scanLVLine (st : LVScan) (line : List Char) : LVScan :=
  match searchFrom mLVName line with
  | some nv => { st with namevg := some (String.mk nv.1, String.mk nv.2) }
  | none =>
    match searchFrom mLPs line with
    | some v => { st with lps := some v }
    | none =>
      match searchFrom mPPSize line with
      | some v => { st with pp_size := some v }
      | none =>
        match searchFrom mPolicy line with
        | some w => { st with policy := some (String.mk w) }
        | none => st

/-- The `parse_lv` loop over all lines of the report. -/
def scanLV (data : String) : LVScan :=
  (pySplitlines data.data).foldl scanLVLine ⟨none, none, none, none⟩

/-- Embedding of `parse_lv` (aix_lvol.py lines 150-176): `name` is
initialized to `None`, so the function returns `None` when no name line
matched; otherwise the dict reads `vg`, `lps`, `pp_size` and `policy`,
raising `UnboundLocalError` if one of them was never assigned. -/
def parse_lv (data : String) : Except String (Option LVFacts) :=
  match (scanLV data).namevg with
  | none => .ok none
  | some nv =>
    match (scanLV data).lps, (scanLV data).pp_size, (scanLV data).policy with
    | some lp, some pp, some pol => .ok (some ⟨nv.1, nv.2, lp * pp, pol⟩)
    | _, _, _ => .error "UnboundLocalError"

/-- The value assigned by the last element of `ls` for which `f` fires
(later elements take precedence), mirroring the loop's
last-assignment-wins behavior. -/
def lastSome (f : List Char → Option α) : List (List Char) → Option α
  | [] => none
  | l :: t =>
    match lastSome f t with
    | some v => some v
    | none => f l

/-- First-of-two on options: the first if it fires, the fallback
otherwise. -/
def orDefault (o : Option α) (d : Option α) : Option α :=
  match o with
  | some v => some v
  | none => d

/-- Effective per-line extractor for the group name. -/
def gVGname (l : List Char) : Option String :=
  (searchFrom mVGName l).map String.mk

/-- Effective per-line extractor for the group total size: the total-PP
regex fires and no earlier regex in the loop fired. -/
def gVGsize (l : List Char) : Option Int :=
  match searchFrom mVGName l with
  | some _ => none
  | none => searchFrom mTotal l

/-- Effective per-line extractor for the group PP size. -/
def gVGpp (l : List Char) : Option Int :=
  match searchFrom mVGName l, searchFrom mTotal l with
  | none, none => searchFrom mPPSize l
  | _, _ => none

/-- Effective per-line extractor for the group free space. -/
def gVGfree (l : List Char) : Option Int :=
  match searchFrom mVGName l, searchFrom mTotal l, searchFrom mPPSize l with
  | none, none, none => searchFrom mFree l
  | _, _, _ => none

/-- Effective per-line extractor for the volume name/group pair. -/
def gLVnamevg (l : List Char) : Option (String × String) :=
  (searchFrom mLVName l).map fun nv => (String.mk nv.1, String.mk nv.2)

/-- Effective per-line extractor for the volume partition count. -/
def gLVlps (l : List Char) : Option Int :=
  match searchFrom mLVName l with
  | some _ => none
  | none => searchFrom mLPs l

/-- Effective per-line extractor for the volume PP size. -/
def gLVpp (l : List Char) : Option Int :=
  match searchFrom mLVName l, searchFrom mLPs l with
  | none, none => searchFrom mPPSize l
  | _, _ => none

/-- Effective per-line extractor for the volume placement policy. -/
def gLVpolicy (l : List Char) : Option String :=
  match searchFrom mLVName l, searchFrom mLPs l, searchFrom mPPSize l with
  | none, none, none => (searchFrom mPolicy l).map String.mk
  | _, _, _ => none

/-- The module parameters (the validated `argument_spec` values), plus the
check-mode flag.  `state` and `policy` are constrained by the argument
spec to their two choices; they are carried as strings as in the source. -/
structure Params where
  vg : String
  lv : String
  lv_type : String
  size : Option String
  opts : String
  copies : Int
  state : String
  policy : String
  pvs : List String
  check_mode : Bool

/-- Result of one `module.run_command` call: exit code, stdout, stderr. -/
structure CmdOut where
  rc : Int
  out : String
  err : String

/-- How a run of `main` ends: `exit_json` with a changed flag and message,
`fail_json` with only a message, `fail_json` with message and rc/out/err
diagnostics, an unhandled Python exception, or falling off the end of
`main` without reporting anything. -/
inductive Outcome where
  | exitJson (changed : Bool) (msg : String)
  | failJson (msg : String)
  | failJsonDiag (msg : String) (rc : Int) (out : String) (err : String)
  | pyError (e : String)
  | noOutput
deriving DecidableEq

/-- `' '.join(pvs)`. -/
def pvList (p : Params) : String :=
  String.intercalate " " p.pvs

/-- `lv_policy = 'x' if policy == 'maximum' else 'm'`. -/
def lvPolicyFlag (p : Params) : String :=
  if p.policy = "maximum" then "x" else "m"

/-- `test_opt = 'echo ' if module.check_mode else ''`. -/
def testOpt (p : Params) : String :=
  if p.check_mode then "echo " else ""

/-- The group report command (binary paths from `get_bin_path` are
modelled as the bare command names). -/
def lsvgCmdStr (p : Params) : String :=
  s!"lsvg {p.vg}"

/-- The volume report command. -/
def lslvCmdStr (p : Params) : String :=
  s!"lslv {p.lv}"

/-- The create command built at line 291 of the source (spacing kept
exactly as in the f-string). -/
def mklvCmdStr (p : Params) (lv_size : Int) : String :=
  s!"{testOpt p} mklv -t {p.lv_type} -y {p.lv} -c {p.copies}  -e {lvPolicyFlag p} {p.opts} {p.vg} {lv_size}M {pvList p}"

/-- The delete command built at line 308 of the source. -/
def rmlvCmdStr (p : Params) (name : String) : String :=
  s!"{testOpt p} rmlv -f {name}"

/-- The policy-change command built at line 326 of the source. -/
def chlvCmdStr (p : Params) (name : String) : String :=
  s!"{testOpt p} chlv -e {lvPolicyFlag p} {name}"

/-- The resize command built at line 357 of the source. -/
def extendlvCmdStr (p : Params) (delta : Int) : String :=
  s!"{testOpt p} extendlv {p.lv} {delta}M"

/-- Embedding of `main` (aix_lvol.py lines 206-382).  `resp i` is the
result of the i-th `module.run_command` call (the command runner is an
opaque collaborator); the returned list is the commands passed to the
runner, in order.  Control flow after `exit_json`/`fail_json` (which do
not return) is modelled by returning the corresponding `Outcome`. -/
def mainRun (p : Params) (resp : Nat → CmdOut) : Outcome × List String :=
  let r0 := resp 0
  let t0 := [lsvgCmdStr p]
  if r0.rc ≠ 0 then
    if p.state = "absent" then
      (.exitJson false s!"Volume group {p.vg} does not exist.", t0)
    else
      (.failJsonDiag s!"Volume group {p.vg} does not exist." r0.rc r0.out r0.err, t0)
  else
    match parse_vg r0.out with
    | .error e => (.pyError e, t0)
    | .ok this_vg =>
      -- lines 263-265: lv_size is assigned only when a size was given
      let conv : Except Outcome (Option Int) :=
        match p.size with
        | none => .ok none
        | some s =>
          match convert_size s with
          | .ok n =>
            match round_ppsize n this_vg.pp_size with
            | .ok v => .ok (some v)
            | .error e => .error (.pyError e)
          | .invalidUnit => .error (.failJson "No valid size unit specified.")
          | .pyError e => .error (.pyError e)
      match conv with
      | .error o => (o, t0)
      | .ok lv_size? =>
        let r1 := resp 1
        let t1 := [lsvgCmdStr p, lslvCmdStr p]
        if r1.rc ≠ 0 ∧ p.state = "absent" then
          (.exitJson false s!"Logical Volume {p.lv} does not exist.", t1)
        else
          match parse_lv r1.out with
          | .error e => (.pyError e, t1)
          | .ok this_lv? =>
            if p.state = "present" ∧ p.size = none ∧ this_lv? = none then
              (.failJson "No size given.", t1)
            else
              match this_lv? with
              | none =>
                if p.state = "present" then
                  match lv_size? with
                  | none => (.pyError "UnboundLocalError", t1)
                  | some lv_size =>
                    if this_vg.free < lv_size then
                      (.failJson s!"Not enough free space in volume group {this_vg.name}: {this_vg.free} MB free.", t1)
                    else
                      let r2 := resp 2
                      if r2.rc = 0 then
                        (.exitJson true s!"Logical volume {p.lv} created.", t1 ++ [mklvCmdStr p lv_size])
                      else
                        (.failJsonDiag s!"Creating logical volume {p.lv} failed." r2.rc r2.out r2.err, t1 ++ [mklvCmdStr p lv_size])
                else
                  -- state is absent but the report parsed to no volume:
                  -- main falls off its end without reporting anything
                  (.noOutput, t1)
              | some this_lv =>
                if p.state = "absent" then
                  let r2 := resp 2
                  if r2.rc = 0 then
                    (.exitJson true s!"Logical volume {p.lv} deleted.", t1 ++ [rmlvCmdStr p this_lv.name])
                  else
                    (.failJsonDiag s!"Failed to remove logical volume {p.lv}." r2.rc r2.out r2.err, t1 ++ [rmlvCmdStr p this_lv.name])
                else
                  if this_lv.policy ≠ p.policy then
                    let r2 := resp 2
                    if r2.rc = 0 then
                      (.exitJson true s!"Logical volume {p.lv} policy changed: {p.policy}.", t1 ++ [chlvCmdStr p this_lv.name])
                    else
                      (.failJsonDiag s!"Failed to change logical volume {p.lv} policy." r2.rc r2.out r2.err, t1 ++ [chlvCmdStr p this_lv.name])
                  else
                    if p.vg ≠ this_lv.vg then
                      (.failJson s!"Logical volume {p.lv} already exist in volume group {this_lv.vg}", t1)
                    else
                      if p.size = none then
                        (.exitJson false s!"Logical volume {p.lv} already exist.", t1)
                      else
                        match lv_size? with
                        | none => (.pyError "UnboundLocalError", t1)
                        | some lv_size =>
                          if this_lv.size < lv_size then
                            let r2 := resp 2
                            if r2.rc = 0 then
                              (.exitJson true s!"Logical volume {p.lv} size extended to {lv_size}MB.", t1 ++ [extendlvCmdStr p (lv_size - this_lv.size)])
                            else
                              (.failJsonDiag s!"Unable to resize {p.lv} to {lv_size}MB." r2.rc r2.out r2.err, t1 ++ [extendlvCmdStr p (lv_size - this_lv.size)])
                          else if lv_size < this_lv.size then
                            (.failJson s!"No shrinking of Logical Volume {p.lv} permitted. Current size: {this_lv.size} MB", t1)
                          else
                            (.exitJson false s!"Logical volume {p.lv} size is already {lv_size}MB.", t1)

/-- A baseline parameter set: create/inspect `testlv` in `testvg`. -/
def pBase : Params :=
  ⟨"testvg", "testlv", "jfs2", none, "", 1, "present", "maximum", [], false⟩

/-- A group report with all four fields (free space 1000 MB, PP size 4). -/
def vgReport : String :=
  "VOLUME GROUP: testvg\nTOTAL PPs: 500 (2000 megabytes)\nPP SIZE: 4 megabyte(s)\nFREE PPs: 250 (1000 megabytes)"

/-- A volume report for a 512 MB volume (128 partitions of 4 MB) with
maximum placement policy. -/
def lvReport : String :=
  "LOGICAL VOLUME: testlv VOLUME GROUP: testvg\nLPs: 128 PPs\nPP SIZE: 4\nINTER-POLICY: maximum"

/-- A scripted command runner: results for the first, second, and any
further `run_command` call. -/
def respOf (a b c : CmdOut) : Nat → CmdOut :=
  fun n => if n = 0 then a else if n = 1 then b else c

/-- Runner for the already-at-size scenario: both reports succeed, the
volume is 512 MB with matching group and policy. -/
def respMatch : Nat → CmdOut :=
  respOf ⟨0, vgReport, ""⟩ ⟨0, lvReport, ""⟩ ⟨0, "", ""⟩

/-- The policy-change scenario of claim C7: desired minimum policy and a
1 GB size, against an observed maximum-policy 512 MB volume. -/
def pPolicy : Params :=
  { pBase with size := some "1G", policy := "minimum" }

/-- Claim C5: for every size string with a Python-integer prefix of value
N and a unit letter, the converter returns N, N·1024, or N·1024² megabytes
for units M, G, T (case-insensitive), and reports the InvalidSizeUnit
failure for every other final letter. -/
theorem convert_size_valid_units (pre : List Char) (u : Char) (N : Int)
    (hpre : pyInt? pre = some N) (hpos : 0 < N) :
    (u.toUpper = 'M' → convert_size (String.mk (pre ++ [u])) = SizeResult.ok N) ∧
    (u.toUpper = 'G' → convert_size (String.mk (pre ++ [u])) = SizeResult.ok (N * 1024)) ∧
    (u.toUpper = 'T' → convert_size (String.mk (pre ++ [u])) = SizeResult.ok (N * 1024 * 1024)) ∧
    (u.toUpper ≠ 'M' → u.toUpper ≠ 'G' → u.toUpper ≠ 'T' →
      convert_size (String.mk (pre ++ [u])) = SizeResult.invalidUnit) := by
  have hrev : (pre ++ [u]).reverse = u :: pre.reverse := by simp
  have uM : unitIdx 'M' = some 0 := by decide
  have uG : unitIdx 'G' = some 1 := by decide
  have uT : unitIdx 'T' = some 2 := by decide
  refine ⟨fun h => ?_, fun h => ?_, fun h => ?_, fun h1 h2 h3 => ?_⟩
  · simp only [convert_size, convertSizeL, hrev, h, uM, List.reverse_reverse, hpre]
    norm_num
  · simp only [convert_size, convertSizeL, hrev, h, uG, List.reverse_reverse, hpre]
    norm_num
  · simp only [convert_size, convertSizeL, hrev, h, uT, List.reverse_reverse, hpre]
    norm_num
    ring
  · simp only [convert_size, convertSizeL, hrev, unitIdx, List.reverse_reverse, hpre]
    rw [if_neg h1, if_neg h2, if_neg h3]

/-- Witness for `convert_size_valid_units`: "512M" converts to 512 MB. -/
theorem convert_size_valid_units_w :
    convert_size (String.mk ("512".data ++ ['M'])) = SizeResult.ok 512 :=
  (convert_size_valid_units "512".data 'M' 512 (by decide) (by decide)).1 (by decide)

/-- Claim C10 (amended): the converter checks only the final unit letter
before reporting an error: the empty string raises an unhandled IndexError,
and any string ending in a valid unit letter whose prefix is not a Python
integer literal raises an unhandled ValueError. -/
theorem convert_size_bad_prefix_unhandled :
    (∀ (pre : List Char) (u : Char),
      (u.toUpper = 'M' ∨ u.toUpper = 'G' ∨ u.toUpper = 'T') →
      pyInt? pre = none →
      convert_size (String.mk (pre ++ [u])) = SizeResult.pyError "ValueError") ∧
    convert_size "" = SizeResult.pyError "IndexError" := by
  constructor
  · intro pre u hu hpre
    have hrev : (pre ++ [u]).reverse = u :: pre.reverse := by simp
    have uM : unitIdx 'M' = some 0 := by decide
    have uG : unitIdx 'G' = some 1 := by decide
    have uT : unitIdx 'T' = some 2 := by decide
    rcases hu with h | h | h
    · simp only [convert_size, convertSizeL, hrev, h, uM, List.reverse_reverse, hpre]
    · simp only [convert_size, convertSizeL, hrev, h, uG, List.reverse_reverse, hpre]
    · simp only [convert_size, convertSizeL, hrev, h, uT, List.reverse_reverse, hpre]
  · rfl

/-- Witness for `convert_size_bad_prefix_unhandled`: "1.5G" raises an
unhandled ValueError. -/
theorem convert_size_bad_prefix_unhandled_w :
    convert_size (String.mk ("1.5".data ++ ['G'])) = SizeResult.pyError "ValueError" :=
  convert_size_bad_prefix_unhandled.1 "1.5".data 'G' (Or.inr (Or.inl (by decide))) (by decide)

/-- Counterexample to claim C10 as stated: "1.5X" has a non-integer prefix,
yet the converter reports the InvalidSizeUnit failure (the unit letter is
checked first) instead of raising an unhandled exception. -/
theorem convert_size_bad_prefix_cex :
    convert_size "1.5X" = SizeResult.invalidUnit ∧ pyInt? "1.5".data = none := by
  exact ⟨rfl, rfl⟩

/-- A `lastSome` is `none` exactly when `f` fires on no element. -/
theorem lastSome_eq_none (f : List Char → Option α) (ls : List (List Char)) :
    lastSome f ls = none ↔ ∀ l ∈ ls, f l = none := by
  induction ls with
  | nil => simp [lastSome]
  | cons l t ih =>
    simp only [lastSome]
    cases h : lastSome f t with
    | some v =>
      constructor
      · intro hx
        exact absurd hx (by simp)
      · intro hall
        have h0 : lastSome f t = none := ih.mpr fun x hx => hall x (List.mem_cons_of_mem _ hx)
        rw [h0] at h
        exact absurd h (by simp)
    | none =>
      constructor
      · intro hl x hx
        rcases List.mem_cons.mp hx with rfl | hx
        · exact hl
        · exact (ih.mp h) x hx
      · intro hall
        exact hall l (List.mem_cons_self _ _)

/-- If one loop step updates a field to the value of `g` when `g` fires
and leaves it alone otherwise, then after folding over all lines the field
holds the last fired value, or its initial value if `g` never fired. -/
theorem foldl_scan_field {σ : Type} {α : Type} (F : σ → List Char → σ)
    (proj : σ → Option α) (g : List Char → Option α)
    (hstep : ∀ st l, proj (F st l) = orDefault (g l) (proj st)) :
    ∀ (ls : List (List Char)) (st : σ),
      proj (ls.foldl F st) = orDefault (lastSome g ls) (proj st) := by
  intro ls
  induction ls with
  | nil =>
    intro st
    simp [lastSome, orDefault]
  | cons l t ih =>
    intro st
    rw [List.foldl_cons, ih, hstep]
    cases h : lastSome g t with
    | some v => simp [lastSome, h, orDefault]
    | none => simp [lastSome, h, orDefault]

theorem scanVGLine_name (st : VGScan) (l : List Char) :
    (scanVGLine st l).name = orDefault (gVGname l) (st.name) := by
  unfold scanVGLine gVGname orDefault
  rcases h1 : searchFrom mVGName l with _ | n
  · rcases h2 : searchFrom mTotal l with _ | v <;>
      rcases h3 : searchFrom mPPSize l with _ | v2 <;>
      rcases h4 : searchFrom mFree l with _ | v3 <;> simp
  · simp

theorem scanVGLine_size (st : VGScan) (l : List Char) :
    (scanVGLine st l).size = orDefault (gVGsize l) (st.size) := by
  unfold scanVGLine gVGsize orDefault
  rcases h1 : searchFrom mVGName l with _ | n
  · rcases h2 : searchFrom mTotal l with _ | v <;>
      rcases h3 : searchFrom mPPSize l with _ | v2 <;>
      rcases h4 : searchFrom mFree l with _ | v3 <;> simp
  · simp

theorem scanVGLine_pp (st : VGScan) (l : List Char) :
    (scanVGLine st l).pp_size = orDefault (gVGpp l) (st.pp_size) := by
  unfold scanVGLine gVGpp orDefault
  rcases h1 : searchFrom mVGName l with _ | n
  · rcases h2 : searchFrom mTotal l with _ | v <;>
      rcases h3 : searchFrom mPPSize l with _ | v2 <;>
      rcases h4 : searchFrom mFree l with _ | v3 <;> simp
  · simp

theorem scanVGLine_free (st : VGScan) (l : List Char) :
    (scanVGLine st l).free = orDefault (gVGfree l) (st.free) := by
  unfold scanVGLine gVGfree orDefault
  rcases h1 : searchFrom mVGName l with _ | n
  · rcases h2 : searchFrom mTotal l with _ | v <;>
      rcases h3 : searchFrom mPPSize l with _ | v2 <;>
      rcases h4 : searchFrom mFree l with _ | v3 <;> simp
  · simp

theorem scanVG_name (data : String) :
    (scanVG data).name = lastSome gVGname (pySplitlines data.data) := by
  unfold scanVG
  rw [foldl_scan_field scanVGLine VGScan.name gVGname scanVGLine_name]
  cases lastSome gVGname (pySplitlines data.data) <;> rfl


theorem scanVG_size (data : String) :
    (scanVG data).size = lastSome gVGsize (pySplitlines data.data) := by
  unfold scanVG
  rw [foldl_scan_field scanVGLine VGScan.size gVGsize scanVGLine_size]
  cases lastSome gVGsize (pySplitlines data.data) <;> rfl

theorem scanVG_pp (data : String) :
    (scanVG data).pp_size = lastSome gVGpp (pySplitlines data.data) := by
  unfold scanVG
  rw [foldl_scan_field scanVGLine VGScan.pp_size gVGpp scanVGLine_pp]
  cases lastSome gVGpp (pySplitlines data.data) <;> rfl

theorem scanVG_free (data : String) :
    (scanVG data).free = lastSome gVGfree (pySplitlines data.data) := by
  unfold scanVG
  rw [foldl_scan_field scanVGLine VGScan.free gVGfree scanVGLine_free]
  cases lastSome gVGfree (pySplitlines data.data) <;> rfl

/-- Claim C2 (amended): the group parser is not tolerant of missing
fields.  It returns facts exactly when every one of the four labeled
fields was matched by some line (in any order, the last match of a field
winning), and each returned attribute is that last matched value; if any
field is missing from the report, the parser instead fails with an
unhandled `UnboundLocalError`. -/
theorem parse_vg_all_fields_or_error (data : String) (v : VGFacts) :
    (parse_vg data = Except.ok v ↔
      lastSome gVGname (pySplitlines data.data) = some v.name ∧
      lastSome gVGsize (pySplitlines data.data) = some v.size ∧
      lastSome gVGfree (pySplitlines data.data) = some v.free ∧
      lastSome gVGpp (pySplitlines data.data) = some v.pp_size) ∧
    ((∃ e, parse_vg data = Except.error e) ↔
      (lastSome gVGname (pySplitlines data.data) = none ∨
       lastSome gVGsize (pySplitlines data.data) = none ∨
       lastSome gVGfree (pySplitlines data.data) = none ∨
       lastSome gVGpp (pySplitlines data.data) = none)) := by
  obtain ⟨vn, vs, vf, vp⟩ := v
  have e1 := scanVG_name data
  have e2 := scanVG_size data
  have e3 := scanVG_free data
  have e4 := scanVG_pp data
  unfold parse_vg
  rw [e1, e2, e3, e4]
  rcases h1 : lastSome gVGname (pySplitlines data.data) with _ | n <;>
    rcases h2 : lastSome gVGsize (pySplitlines data.data) with _ | s <;>
    rcases h3 : lastSome gVGfree (pySplitlines data.data) with _ | f <;>
    rcases h4 : lastSome gVGpp (pySplitlines data.data) with _ | pp <;>
    simp [VGFacts.mk.injEq, eq_comm]

/-- Counterexample to claim C2 as stated: a group report in which only the
group-name field is present does not yield facts with the other attributes
unset — the parser fails with an unhandled `UnboundLocalError`. -/
theorem parse_vg_missing_field_raises :
    parse_vg "VOLUME GROUP: testvg" = Except.error "UnboundLocalError" := by
  rfl

/-- Witness for `parse_vg_all_fields_or_error`: a report carrying all four
fields parses to the corresponding facts. -/
theorem parse_vg_all_fields_or_error_w :
    parse_vg "VOLUME GROUP: testvg\nTOTAL PPs: 500 (2000 megabytes)\nPP SIZE: 4 megabyte(s)\nFREE PPs: 250 (1000 megabytes)" =
      Except.ok ⟨"testvg", 2000, 1000, 4⟩ :=
  (parse_vg_all_fields_or_error
    "VOLUME GROUP: testvg\nTOTAL PPs: 500 (2000 megabytes)\nPP SIZE: 4 megabyte(s)\nFREE PPs: 250 (1000 megabytes)"
    ⟨"testvg", 2000, 1000, 4⟩).1.mpr ⟨by rfl, by rfl, by rfl, by rfl⟩

theorem scanLVLine_namevg (st : LVScan) (l : List Char) :
    (scanLVLine st l).namevg = orDefault (gLVnamevg l) (st.namevg) := by
  unfold scanLVLine gLVnamevg orDefault
  rcases h1 : searchFrom mLVName l with _ | n
  · rcases h2 : searchFrom mLPs l with _ | v <;>
      rcases h3 : searchFrom mPPSize l with _ | v2 <;>
      rcases h4 : searchFrom mPolicy l with _ | v3 <;> simp
  · simp

theorem scanLVLine_lps (st : LVScan) (l : List Char) :
    (scanLVLine st l).lps = orDefault (gLVlps l) (st.lps) := by
  unfold scanLVLine gLVlps orDefault
  rcases h1 : searchFrom mLVName l with _ | n
  · rcases h2 : searchFrom mLPs l with _ | v <;>
      rcases h3 : searchFrom mPPSize l with _ | v2 <;>
      rcases h4 : searchFrom mPolicy l with _ | v3 <;> simp
  · simp

theorem scanLVLine_pp (st : LVScan) (l : List Char) :
    (scanLVLine st l).pp_size = orDefault (gLVpp l) (st.pp_size) := by
  unfold scanLVLine gLVpp orDefault
  rcases h1 : searchFrom mLVName l with _ | n
  · rcases h2 : searchFrom mLPs l with _ | v <;>
      rcases h3 : searchFrom mPPSize l with _ | v2 <;>
      rcases h4 : searchFrom mPolicy l with _ | v3 <;> simp
  · simp

theorem scanLVLine_policy (st : LVScan) (l : List Char) :
    (scanLVLine st l).policy = orDefault (gLVpolicy l) (st.policy) := by
  unfold scanLVLine gLVpolicy orDefault
  rcases h1 : searchFrom mLVName l with _ | n
  · rcases h2 : searchFrom mLPs l with _ | v <;>
      rcases h3 : searchFrom mPPSize l with _ | v2 <;>
      rcases h4 : searchFrom mPolicy l with _ | v3 <;> simp
  · simp

theorem scanLV_namevg (data : String) :
    (scanLV data).namevg = lastSome gLVnamevg (pySplitlines data.data) := by
  unfold scanLV
  rw [foldl_scan_field scanLVLine LVScan.namevg gLVnamevg scanLVLine_namevg]
  cases lastSome gLVnamevg (pySplitlines data.data) <;> rfl

theorem scanLV_lps (data : String) :
    (scanLV data).lps = lastSome gLVlps (pySplitlines data.data) := by
  unfold scanLV
  rw [foldl_scan_field scanLVLine LVScan.lps gLVlps scanLVLine_lps]
  cases lastSome gLVlps (pySplitlines data.data) <;> rfl

theorem scanLV_pp (data : String) :
    (scanLV data).pp_size = lastSome gLVpp (pySplitlines data.data) := by
  unfold scanLV
  rw [foldl_scan_field scanLVLine LVScan.pp_size gLVpp scanLVLine_pp]
  cases lastSome gLVpp (pySplitlines data.data) <;> rfl

theorem scanLV_policy (data : String) :
    (scanLV data).policy = lastSome gLVpolicy (pySplitlines data.data) := by
  unfold scanLV
  rw [foldl_scan_field scanLVLine LVScan.policy gLVpolicy scanLVLine_policy]
  cases lastSome gLVpolicy (pySplitlines data.data) <;> rfl

/-- Claim C9: the volume parser returns the null result exactly when no
line of the report matched the volume-name-plus-group pattern; and
whenever it returns facts, their size is the parsed partition count times
the parsed allocation-unit size. -/
theorem parse_lv_none_iff_no_name (data : String) :
    (parse_lv data = Except.ok none ↔
      ∀ line ∈ pySplitlines data.data, searchFrom mLVName line = none) ∧
    (∀ r, parse_lv data = Except.ok (some r) →
      ∃ lp pp, lastSome gLVlps (pySplitlines data.data) = some lp ∧
        lastSome gLVpp (pySplitlines data.data) = some pp ∧
        r.size = lp * pp) := by
  have e1 := scanLV_namevg data
  have e2 := scanLV_lps data
  have e3 := scanLV_pp data
  have e4 := scanLV_policy data
  constructor
  · rw [show (∀ line ∈ pySplitlines data.data, searchFrom mLVName line = none) ↔
        lastSome gLVnamevg (pySplitlines data.data) = none by
      rw [lastSome_eq_none]
      unfold gLVnamevg
      constructor
      · intro h l hl
        rw [h l hl]
        rfl
      · intro h l hl
        have := h l hl
        cases hs : searchFrom mLVName l
        · rfl
        · rw [hs] at this
          exact absurd this (by simp)]
    unfold parse_lv
    rw [e1]
    rcases h1 : lastSome gLVnamevg (pySplitlines data.data) with _ | nv
    · simp
    · rcases h2 : (scanLV data).lps with _ | lp <;>
        rcases h3 : (scanLV data).pp_size with _ | pp <;>
        rcases h4 : (scanLV data).policy with _ | pol <;> simp
  · intro r hr
    unfold parse_lv at hr
    rw [e1] at hr
    rcases h1 : lastSome gLVnamevg (pySplitlines data.data) with _ | nv <;> rw [h1] at hr
    · simp at hr
    · rcases h2 : (scanLV data).lps with _ | lp <;> rw [h2] at hr <;>
        rcases h3 : (scanLV data).pp_size with _ | pp <;> rw [h3] at hr <;>
        rcases h4 : (scanLV data).policy with _ | pol <;> rw [h4] at hr <;>
        simp at hr
      exact ⟨lp, pp, by rw [← e2, h2], by rw [← e3, h3], by rw [← hr]⟩

/-- Witness for `parse_lv_none_iff_no_name`: on a full volume report the
returned size 512 is the partition count 128 times the unit size 4. -/
theorem parse_lv_none_iff_no_name_w :
    ∃ lp pp,
      lastSome gLVlps (pySplitlines ("LOGICAL VOLUME: testlv VOLUME GROUP: testvg\nLPs: 128 PPs\nPP SIZE: 4\nINTER-POLICY: maximum" : String).data) = some lp ∧
      lastSome gLVpp (pySplitlines ("LOGICAL VOLUME: testlv VOLUME GROUP: testvg\nLPs: 128 PPs\nPP SIZE: 4\nINTER-POLICY: maximum" : String).data) = some pp ∧
      (LVFacts.mk "testlv" "testvg" 512 "maximum").size = lp * pp :=
  (parse_lv_none_iff_no_name
    "LOGICAL VOLUME: testlv VOLUME GROUP: testvg\nLPs: 128 PPs\nPP SIZE: 4\nINTER-POLICY: maximum").2
    ⟨"testlv", "testvg", 512, "maximum"⟩ (by rfl)

/-- Claim C3 (code bug): with desired state absent and a volume report
that exits 0 but contains no volume-name line, the run reaches the end of
`main` and reports none of the three contracted outcomes — no
`exit_json`, no `fail_json`, no diagnostics. -/
theorem mainRun_absent_unparsed_no_result :
    mainRun { pBase with state := "absent" }
        (respOf ⟨0, vgReport, ""⟩ ⟨0, "", ""⟩ ⟨0, "", ""⟩) =
      (Outcome.noOutput, ["lsvg testvg", "lslv testlv"]) := by
  rfl

/-- Claim C8: when the desired state is present, no existing volume is
observed and no size was supplied, the run fails with the
MissingSizeError ("No size given.") and no mutating command is ever
issued — only the two report commands ran. -/
theorem mainRun_create_needs_size (p : Params) (resp : Nat → CmdOut) (gv : VGFacts)
    (hstate : p.state = "present") (hrc0 : (resp 0).rc = 0)
    (hvg : parse_vg (resp 0).out = .ok gv) (hsize : p.size = none)
    (hlv : parse_lv (resp 1).out = .ok none) :
    (mainRun p resp).1 = .failJson "No size given." ∧
    (mainRun p resp).2 = [lsvgCmdStr p, lslvCmdStr p] := by
  unfold mainRun
  simp only [hrc0, hvg, hsize, hlv, hstate, ne_eq]
  have hne : ("present" : String) ≠ "absent" := by decide
  simp [hne]

/-- Witness for `mainRun_create_needs_size`. -/
theorem mainRun_create_needs_size_w :
    (mainRun pBase (respOf ⟨0, vgReport, ""⟩ ⟨255, "not found", ""⟩ ⟨0, "", ""⟩)).1 =
      .failJson "No size given." ∧
    (mainRun pBase (respOf ⟨0, vgReport, ""⟩ ⟨255, "not found", ""⟩ ⟨0, "", ""⟩)).2 =
      [lsvgCmdStr pBase, lslvCmdStr pBase] :=
  mainRun_create_needs_size pBase (respOf ⟨0, vgReport, ""⟩ ⟨255, "not found", ""⟩ ⟨0, "", ""⟩)
    ⟨"testvg", 2000, 1000, 4⟩ rfl rfl (by rfl) rfl (by rfl)

/-- Claim C7: with desired state present, the volume observed, and the
observed placement policy differing from the desired one (the size also
differing), the single mutating command issued is the chlv policy change —
never the resize — and the run reports the policy change (or its
failure).  The `round_ppsize ... = .ok T` hypothesis excludes the
ZeroDivisionError crash at `pp_size = 0` (which would abort the run
before the volume report), and the `natAbs` bound keeps the size in the
range where the rounding model matches binary64 (see `pyRound`). -/
theorem mainRun_policy_change_first (p : Params) (resp : Nat → CmdOut) (gv : VGFacts)
    (l : LVFacts) (s : String) (n T : Int)
    (hstate : p.state = "present") (hrc0 : (resp 0).rc = 0)
    (hvg : parse_vg (resp 0).out = .ok gv)
    (hsize : p.size = some s) (hconv : convert_size s = .ok n)
    (hlv : parse_lv (resp 1).out = .ok (some l))
    (hpol : l.policy ≠ p.policy)
    (hn : n.natAbs < 2 ^ 52)
    (hT : round_ppsize n gv.pp_size = Except.ok T)
    (hdiff : T ≠ l.size) :
    (mainRun p resp).2 = [lsvgCmdStr p, lslvCmdStr p, chlvCmdStr p l.name] ∧
    ((resp 2).rc = 0 →
      (mainRun p resp).1 = .exitJson true s!"Logical volume {p.lv} policy changed: {p.policy}.") ∧
    ((resp 2).rc ≠ 0 →
      (mainRun p resp).1 =
        .failJsonDiag s!"Failed to change logical volume {p.lv} policy."
          (resp 2).rc (resp 2).out (resp 2).err) := by
  unfold mainRun
  simp only [hrc0, hvg, hsize, hconv, hT, hlv, hstate, ne_eq]
  have hne : ("present" : String) ≠ "absent" := by decide
  by_cases hrc2 : (resp 2).rc = 0 <;> simp [hne, hpol, hrc2]

/-- Witness for `mainRun_policy_change_first`: policy and size both
differ, yet only the chlv command is issued and the policy change is
reported. -/
theorem mainRun_policy_change_first_w :
    (mainRun pPolicy respMatch).2 = ["lsvg testvg", "lslv testlv", " chlv -e m testlv"] ∧
    (mainRun pPolicy respMatch).1 =
      Outcome.exitJson true "Logical volume testlv policy changed: minimum." := by
  have h := mainRun_policy_change_first pPolicy respMatch ⟨"testvg", 2000, 1000, 4⟩
    ⟨"testlv", "testvg", 512, "maximum"⟩ "1G" 1024 1024 rfl rfl (by rfl) rfl (by rfl) (by rfl)
    (by decide) (by decide) (by rfl) (by decide)
  exact ⟨h.1, h.2.1 rfl⟩

